import Mathlib

/-!
Shallow embedding of the Travel_Planner_Agent repository.

The embedded code:
* `state/travel_state.py` — the `TravelState` TypedDict (here a structure whose
  derived fields are `Option String`, `none` meaning "key absent").
* `llms/llm_provider.py` — `get_groq_llm_with_fallback` and `get_llm`.
* `agents/*.py` — the five node functions.  External collaborators (the Groq
  construction/probe, each node's single `llm.invoke` round-trip, the
  open-meteo geocoding and weather lookups, the Amadeus client construction)
  are supplied by an `Env` oracle; Python exceptions are modelled with
  `Except String`.
* `orchestrator.py` — the LangGraph workflow: node list, static edges, the
  conditional router `should_find_activities`, and `run_travel_planning`.
  The executor here additionally returns the list of visited nodes so that
  visiting order is a provable observable.
-/

namespace TravelPlanner

/-- The five workflow nodes registered by `create_travel_workflow`. -/
inductive Node
  | visa_agent
  | weather_agent
  | itinerary_builder
  | hotel_recommender
  | activity_finder
deriving DecidableEq

/-- Destination of an edge: a next node, or the LangGraph `END` sentinel. -/
inductive NextStep
  | next (n : Node)
  | terminal
deriving DecidableEq

/-- The keys of the `TravelState` TypedDict in `state/travel_state.py`. -/
inductive StateField
  | origin_country
  | destination
  | budget_type
  | trip_type
  | num_people
  | start_date
  | end_date
  | additional_comments
  | include_activities
  | suggested_hotels
  | suggested_activities
  | itinerary
  | packing_tips
  | visa_info
  | weather_forecast
  | trip_duration_days
  | error
deriving DecidableEq

/-- A value stored under a `TravelState` key (strings, ints, bools suffice
for every value the source ever stores). -/
inductive Value
  | str (s : String)
  | int (i : Int)
  | bool (b : Bool)
deriving DecidableEq

/-- `TravelState` from `state/travel_state.py`.  Input fields are plain
values (a valid initial record populates them all); derived/optional fields
are `Option`s defaulting to `none` (key absent).  Dates are day numbers. -/
structure TravelState where
  origin_country : String
  destination : String
  budget_type : String
  trip_type : String
  num_people : Int
  start_date : Int
  end_date : Int
  additional_comments : Option String
  include_activities : Option Bool
  suggested_hotels : Option String := none
  suggested_activities : Option String := none
  itinerary : Option String := none
  packing_tips : Option String := none
  visa_info : Option String := none
  weather_forecast : Option String := none
  trip_duration_days : Option Int := none
  error : Option String := none
deriving DecidableEq

/-- The partial mapping a node returns: a list of key/value pairs, as the
Python node functions return dict literals. -/
def Update : Type := List (StateField × Value)

/-- Store one key/value pair into the state (the dict merge LangGraph
performs on a node's returned update).  A value of the wrong shape for the
key leaves the state unchanged; no node in the source produces one. -/
def applyField (s : TravelState) (f : StateField) (v : Value) : TravelState :=
  match f, v with
  | .origin_country, .str c => { s with origin_country := c }
  | .destination, .str c => { s with destination := c }
  | .budget_type, .str c => { s with budget_type := c }
  | .trip_type, .str c => { s with trip_type := c }
  | .num_people, .int i => { s with num_people := i }
  | .start_date, .int i => { s with start_date := i }
  | .end_date, .int i => { s with end_date := i }
  | .additional_comments, .str c => { s with additional_comments := some c }
  | .include_activities, .bool b => { s with include_activities := some b }
  | .suggested_hotels, .str c => { s with suggested_hotels := some c }
  | .suggested_activities, .str c => { s with suggested_activities := some c }
  | .itinerary, .str c => { s with itinerary := some c }
  | .packing_tips, .str c => { s with packing_tips := some c }
  | .visa_info, .str c => { s with visa_info := some c }
  | .weather_forecast, .str c => { s with weather_forecast := some c }
  | .trip_duration_days, .int i => { s with trip_duration_days := some i }
  | .error, .str c => { s with error := some c }
  | _, _ => s

/-- Merge a node's returned update into the shared state, key by key. -/
def applyUpdate (s : TravelState) (u : Update) : TravelState :=
  u.foldl (fun st p => applyField st p.1 p.2) s

/-- Outcome of constructing a `ChatGroq` handle for one model name and
running the `llm.invoke ("Say hello!")` liveness probe: success, a
`RateLimitError`, or any other exception. -/
inductive ProbeResult
  | success
  | rateLimited
  | failed (msg : String)
deriving DecidableEq

/-- Shape of the dictionary `get_weather_data` returns: `{}` after a caught
request error, a dictionary whose `daily` entry is missing or empty, or a
dictionary with daily data. -/
inductive WeatherResp
  | failed
  | noDaily
  | daily
deriving DecidableEq

/-- The external world, fixed for one pipeline run: environment variables,
the Groq construct-and-probe outcome per model name, each node's single
chat-completion round-trip (`.error` = the invoke raised), the geocoding
lookup (`none` = exception or empty result list, as `get_coordinates`
collapses both to `(None, None)`), the weather lookup, and the Amadeus
client construction. -/
structure Env where
  getenv : String → Option String
  probe : String → ProbeResult
  llmResp : Node → Except String String
  geocode : String → Option (Rat × Rat)
  weatherFetch : Rat → Rat → Int → Int → WeatherResp
  amadeusInit : Except String Unit

/-- The `model_priority` list in `get_groq_llm_with_fallback`:
`GROQ_MODEL`, `GROQ_MODEL_V2`, `GROQ_MODEL_V3`, with their defaults. -/
def model_priority (env : Env) : List String :=
  [(env.getenv "GROQ_MODEL").getD "openai/gpt-oss-120b",
   (env.getenv "GROQ_MODEL_V2").getD "llama-3.1-8b-instant",
   (env.getenv "GROQ_MODEL_V3").getD "gemma2-9b-it"]

/-- The `for model_name in model_priority` loop: returns the list of model
names actually attempted, and the first name whose construct-and-probe
succeeded (`none` if the list is exhausted).  Both `RateLimitError` and any
other exception advance to the next candidate. -/
def tryModels (probe : String → ProbeResult) : List String → List String × Option String
  | [] => ([], none)
  | m :: rest =>
    match probe m with
    | .success => ([m], some m)
    | .rateLimited =>
      let r := tryModels probe rest
      (m :: r.1, r.2)
    | .failed _ =>
      let r := tryModels probe rest
      (m :: r.1, r.2)

/-- The message of the terminal `RuntimeError` in `get_groq_llm_with_fallback`. -/
def exhaustMsg : String := "All Groq models failed or are rate-limited."

/-- `get_groq_llm_with_fallback` from `llms/llm_provider.py`: the handle of
the first candidate that probes successfully, else the terminal error. -/
def get_groq_llm_with_fallback (env : Env) : Except String String :=
  match (tryModels env.probe (model_priority env)).2 with
  | some m => .ok m
  | none => .error exhaustMsg

/-- The candidates `get_groq_llm_with_fallback` actually attempts, in order. -/
def groqAttempts (env : Env) : List String :=
  (tryModels env.probe (model_priority env)).1

/-- `get_llm` from `llms/llm_provider.py` (temperature does not affect any
observable modelled here and is omitted). -/
def get_llm (env : Env) (provider : String) : Except String String :=
  if provider == "openai" then .ok ((env.getenv "OPENAI_MODEL").getD "gpt-4o")
  else if provider == "groq" then get_groq_llm_with_fallback env
  else if provider == "ollama" then .ok ((env.getenv "OLLAMA_MODEL").getD "llama3")
  else .error ("Unsupported LLM provider: " ++ provider)

/-- `visa_agent` from `agents/visa_agent.py`: acquire a model (may raise
backend exhaustion), run the visa prompt (an invoke error is NOT caught),
return `{"visa_info": result.content}`. -/
def visa_agent (env : Env) (s : TravelState) : Except String Update :=
  match get_llm env "groq" with
  | .error e => .error e
  | .ok _ =>
    match env.llmResp .visa_agent with
    | .error e => .error e
    | .ok content => .ok [(StateField.visa_info, Value.str content)]

/-- The placeholder `weather_agent` writes when the coordinate check
`if not lat or not lon` fires. -/
def unableMsg (destination : String) : String :=
  "Unable to get weather data for " ++ destination ++ ". Please check the destination name."

/-- `weather_agent` from `agents/weather_agent.py`.  Acquires a model first
(may raise backend exhaustion), then geocodes; `None` coordinates or a
coordinate equal to 0 fail the truthiness check and short-circuit to the
"Unable" placeholder.  Otherwise it fetches weather data (`{}` after a
caught request error) and falls through the `failed` / missing-`daily`
placeholders to the LLM analysis, whose own errors are caught and replaced
by the "temporarily unavailable" placeholder.  The extra `Bool` records
whether `get_weather_data` was reached. -/
def weather_agent (env : Env) (s : TravelState) : Except String (Update × Bool) :=
  match get_llm env "groq" with
  | .error e => .error e
  | .ok _ =>
    match env.geocode s.destination with
    | none =>
      .ok ([(StateField.weather_forecast, Value.str (unableMsg s.destination))], false)
    | some (la, lo) =>
      if la = 0 ∨ lo = 0 then
        .ok ([(StateField.weather_forecast, Value.str (unableMsg s.destination))], false)
      else
        match env.weatherFetch la lo s.start_date s.end_date with
        | .failed =>
          .ok ([(StateField.weather_forecast,
            Value.str ("Weather data temporarily unavailable for " ++ s.destination ++
              ". Please try again later."))], true)
        | .noDaily =>
          .ok ([(StateField.weather_forecast,
            Value.str ("No weather data available for the selected dates in " ++
              s.destination ++ "."))], true)
        | .daily =>
          match env.llmResp .weather_agent with
          | .ok content =>
            .ok ([(StateField.weather_forecast, Value.str content)], true)
          | .error _ =>
            .ok ([(StateField.weather_forecast,
              Value.str ("Weather analysis temporarily unavailable. Raw data available for " ++
                s.destination ++ " from " ++ toString s.start_date ++ " to " ++
                toString s.end_date ++ "."))], true)

/-- `itinerary_builder` from `agents/itinerary_builder.py`: acquire, run the
itinerary prompt (an invoke error is NOT caught), return `{"itinerary": ...}`. -/
def itinerary_builder (env : Env) (s : TravelState) : Except String Update :=
  match get_llm env "groq" with
  | .error e => .error e
  | .ok _ =>
    match env.llmResp .itinerary_builder with
    | .error e => .error e
    | .ok content => .ok [(StateField.itinerary, Value.str content)]

/-- `hotel_recommender` from `agents/hotel_recommender.py`: a failed Amadeus
client construction returns the credentials placeholder before any model is
acquired; otherwise acquire (may raise backend exhaustion), fetch hotels
(errors are caught inside `fetch_hotels_for_location`), and run the prompt,
catching invoke errors into the "temporarily unavailable" placeholder. -/
def hotel_recommender (env : Env) (s : TravelState) : Except String Update :=
  match env.amadeusInit with
  | .error _ =>
    .ok [(StateField.suggested_hotels,
      Value.str "Unable to fetch hotel recommendations. Please check API credentials.")]
  | .ok _ =>
    match get_llm env "groq" with
    | .error e => .error e
    | .ok _ =>
      match env.llmResp .hotel_recommender with
      | .ok content => .ok [(StateField.suggested_hotels, Value.str content)]
      | .error e =>
        .ok [(StateField.suggested_hotels,
          Value.str ("Hotel recommendations temporarily unavailable. Please try again later. (Error: " ++
            e ++ ")"))]

/-- `activity_finder` from `agents/activity_finder.py`: acquire, run the
activities prompt (an invoke error is NOT caught), return
`{"suggested_activities": ...}`. -/
def activity_finder (env : Env) (s : TravelState) : Except String Update :=
  match get_llm env "groq" with
  | .error e => .error e
  | .ok _ =>
    match env.llmResp .activity_finder with
    | .error e => .error e
    | .ok content => .ok [(StateField.suggested_activities, Value.str content)]

/-- Dispatch a node name to its function, as the node registry built by
`workflow.add_node` in `create_travel_workflow`. -/
def nodeRun (env : Env) : Node → TravelState → Except String Update
  | .visa_agent, s => visa_agent env s
  | .weather_agent, s => (weather_agent env s).map Prod.fst
  | .itinerary_builder, s => itinerary_builder env s
  | .hotel_recommender, s => hotel_recommender env s
  | .activity_finder, s => activity_finder env s

/-- The conditional router `should_find_activities` in `orchestrator.py`:
`state.get("include_activities", False)` decides between the activities
node and `END`. -/
def should_find_activities (s : TravelState) : NextStep :=
  if s.include_activities.getD false then .next .activity_finder else .terminal

/-- The edges declared in `create_travel_workflow`: four static edges, the
conditional edge out of `hotel_recommender`, and `activity_finder -> END`. -/
def successor : Node → TravelState → NextStep
  | .visa_agent, _ => .next .weather_agent
  | .weather_agent, _ => .next .itinerary_builder
  | .itinerary_builder, _ => .next .hotel_recommender
  | .hotel_recommender, s => should_find_activities s
  | .activity_finder, _ => .terminal

/-- One executor step: run the current node, merge its update, follow the
outgoing edge (conditional edges are evaluated on the merged state). -/
def runStep (env : Env)
    (recurse : Node → TravelState → Except String (List Node × TravelState))
    (n : Node) (s : TravelState) : Except String (List Node × TravelState) :=
  match nodeRun env n s with
  | .error e => .error e
  | .ok u =>
    match successor n (applyUpdate s u) with
    | .terminal => .ok ([n], applyUpdate s u)
    | .next m =>
      match recurse m (applyUpdate s u) with
      | .error e => .error e
      | .ok r => .ok (n :: r.1, r.2)

/-- The compiled graph's execution loop, fuelled by the graph's static
bound of five hops (the fuel never runs out from the entry point). -/
def runFrom (env : Env) : Nat → Node → TravelState → Except String (List Node × TravelState)
  | 0, _, _ => .error "graph recursion limit exceeded"
  | fuel + 1, n, s => runStep env (runFrom env fuel) n s

/-- `run_travel_planning` from `orchestrator.py`: compile the workflow and
invoke it from the entry point `visa_agent`.  Besides the final state, the
embedding also returns the list of nodes visited, in visiting order. -/
def run_travel_planning (env : Env) (s : TravelState) :
    Except String (List Node × TravelState) :=
  runFrom env 6 .visa_agent s

/-- The one derived field each node's returned dict literal writes. -/
def ownedField : Node → StateField
  | .visa_agent => .visa_info
  | .weather_agent => .weather_forecast
  | .itinerary_builder => .itinerary
  | .hotel_recommender => .suggested_hotels
  | .activity_finder => .suggested_activities

/-- Agreement on every input field of the record. -/
def inputsEq (s t : TravelState) : Prop :=
  s.origin_country = t.origin_country ∧ s.destination = t.destination ∧
  s.budget_type = t.budget_type ∧ s.trip_type = t.trip_type ∧
  s.num_people = t.num_people ∧ s.start_date = t.start_date ∧
  s.end_date = t.end_date ∧ s.additional_comments = t.additional_comments ∧
  s.include_activities = t.include_activities

/-- A valid initial record: input fields populated, the control flag set,
and no derived field pre-populated. -/
def ValidInitial (s : TravelState) : Prop :=
  s.origin_country ≠ "" ∧ s.destination ≠ "" ∧ s.include_activities.isSome = true ∧
  s.suggested_hotels = none ∧ s.suggested_activities = none ∧
  s.itinerary = none ∧ s.visa_info = none ∧ s.weather_forecast = none

instance (s : TravelState) : Decidable (ValidInitial s) := by
  unfold ValidInitial
  infer_instance

/-- Every successful chat round-trip of this environment returns non-empty
text. -/
def GoodLLM (env : Env) : Prop :=
  ∀ n r, env.llmResp n = .ok r → r ≠ ""

/-- `msg` mentions `dest` as a contiguous substring. -/
def mentions (msg dest : String) : Prop :=
  ∃ a b, msg = a ++ dest ++ b

/-! Concrete fixtures used by the closed witness and counterexample
theorems below. -/

/-- A fully healthy environment: no env vars set, every Groq candidate
probes successfully, every chat round-trip answers "ok", geocoding and the
weather lookup succeed, the Amadeus client constructs. -/
def envW : Env where
  getenv := fun _ => none
  probe := fun _ => ProbeResult.success
  llmResp := fun _ => .ok "ok"
  geocode := fun _ => some (1, 1)
  weatherFetch := fun _ _ _ _ => WeatherResp.daily
  amadeusInit := .ok ()

/-- A valid initial record with the control flag false. -/
def sW : TravelState where
  origin_country := "India"
  destination := "Japan"
  budget_type := "mid-range"
  trip_type := "cultural"
  num_people := 2
  start_date := 20250601
  end_date := 20250605
  additional_comments := none
  include_activities := some false

/-- The same record with the control flag true. -/
def sWT : TravelState := { sW with include_activities := some true }

/-- A record differing from `sWT` everywhere except the control field. -/
def sB : TravelState where
  origin_country := "Chile"
  destination := "Peru"
  budget_type := "luxury"
  trip_type := "adventure"
  num_people := 4
  start_date := 20260101
  end_date := 20260107
  additional_comments := some "museums"
  include_activities := some true

/-- Expected visiting order for a flag-false run. -/
def trW : List Node :=
  [.visa_agent, .weather_agent, .itinerary_builder, .hotel_recommender]

/-- Expected visiting order for a flag-true run. -/
def trW5 : List Node :=
  [.visa_agent, .weather_agent, .itinerary_builder, .hotel_recommender, .activity_finder]

/-- Expected final record of a flag-false run under `envW`. -/
def sfW : TravelState :=
  { sW with visa_info := some "ok", weather_forecast := some "ok",
            itinerary := some "ok", suggested_hotels := some "ok" }

/-- Expected final record of a flag-true run under `envW`. -/
def sfW5 : TravelState :=
  { sWT with visa_info := some "ok", weather_forecast := some "ok",
             itinerary := some "ok", suggested_hotels := some "ok",
             suggested_activities := some "ok" }

/-- Like `envW` but every chat round-trip answers the empty string. -/
def envE : Env := { envW with llmResp := fun _ => .ok "" }

/-- Like `envW` but every chat round-trip raises a connection error. -/
def envC3 : Env := { envW with llmResp := fun _ => .error "Connection error" }

/-- Environment where the first two Groq candidates are rate-limited and
the third succeeds. -/
def envW4 : Env :=
  { envW with probe := fun m => if m == "gemma2-9b-it" then .success else .rateLimited }

/-- Environment where every Groq candidate fails its probe. -/
def envE5 : Env := { envW with probe := fun _ => ProbeResult.rateLimited }

/-- Like `envW` but geocoding is unreachable. -/
def envC6 : Env := { envW with geocode := fun _ => none }

/-- Like `envW` but geocoding reports latitude exactly 0. -/
def envZ : Env := { envW with geocode := fun _ => some (0, 5) }

/-! Helper lemmas. -/

/-- A string with a non-empty left part is non-empty. -/
theorem append_left_ne_empty (a b : String) (h : a ≠ "") : a ++ b ≠ "" := by
  intro hc
  apply h
  have hd : a.data ++ b.data = ([] : List Char) := by
    have hx := congrArg String.data hc
    rwa [String.data_append] at hx
  exact String.ext (List.append_eq_nil.mp hd).1

/-- If every name in the list fails its probe, the loop attempts the whole
list and selects nothing. -/
theorem tryModels_all_fail (p : String → ProbeResult) (l : List String)
    (h : ∀ x ∈ l, p x ≠ ProbeResult.success) : tryModels p l = (l, none) := by
  induction l with
  | nil => rfl
  | cons m rest ih =>
    have hm := h m (by simp)
    have hrest : ∀ x ∈ rest, p x ≠ ProbeResult.success := fun x hx => h x (by simp [hx])
    cases hp : p m with
    | success => exact absurd hp hm
    | rateLimited => simp [tryModels, hp, ih hrest]
    | failed msg => simp [tryModels, hp, ih hrest]

/-- If every name before `m` fails and `m` probes successfully, the loop
attempts exactly the failing prefix plus `m` and selects `m`; nothing after
`m` is attempted. -/
theorem tryModels_first_success (p : String → ProbeResult) (pre : List String)
    (m : String) (post : List String)
    (hpre : ∀ x ∈ pre, p x ≠ ProbeResult.success)
    (hm : p m = ProbeResult.success) :
    tryModels p (pre ++ m :: post) = (pre ++ [m], some m) := by
  induction pre with
  | nil => simp [tryModels, hm]
  | cons a rest ih =>
    have ha := hpre a (by simp)
    have hrest : ∀ x ∈ rest, p x ≠ ProbeResult.success := fun x hx => hpre x (by simp [hx])
    cases hp : p a with
    | success => exact absurd hp ha
    | rateLimited => simp [tryModels, hp, ih hrest]
    | failed msg => simp [tryModels, hp, ih hrest]

/-- The loop selects nothing exactly when every name in the list fails. -/
theorem tryModels_none_iff (p : String → ProbeResult) (l : List String) :
    (tryModels p l).2 = none ↔ ∀ x ∈ l, p x ≠ ProbeResult.success := by
  constructor
  · intro h
    induction l with
    | nil => intro x hx; cases hx
    | cons m rest ih =>
      intro x hx
      cases hp : p m with
      | success => rw [tryModels, hp] at h; cases h
      | rateLimited =>
        rw [tryModels, hp] at h
        rcases List.mem_cons.mp hx with rfl | hx'
        · rw [hp]; intro hc; cases hc
        · exact ih h x hx'
      | failed msg =>
        rw [tryModels, hp] at h
        rcases List.mem_cons.mp hx with rfl | hx'
        · rw [hp]; intro hc; cases hc
        · exact ih h x hx'
  · intro h
    rw [tryModels_all_fail p l h]

/-- C4: `get_groq_llm_with_fallback` tries the candidates `GROQ_MODEL`,
`GROQ_MODEL_V2`, `GROQ_MODEL_V3` in declaration order; whenever some
candidate's construction-and-probe succeeds, the handle of the first
succeeding candidate is returned and no candidate after it is attempted
(the attempted list is exactly the failing prefix followed by the winner). -/
theorem fallback_returns_first_success (env : Env) (pre post : List String) (m : String)
    (hsplit : model_priority env = pre ++ m :: post)
    (hpre : ∀ x ∈ pre, env.probe x ≠ ProbeResult.success)
    (hm : env.probe m = ProbeResult.success) :
    get_groq_llm_with_fallback env = .ok m ∧ groqAttempts env = pre ++ [m] := by
  have h := tryModels_first_success env.probe pre m post hpre hm
  constructor
  · rw [get_groq_llm_with_fallback, hsplit, h]
  · rw [groqAttempts, hsplit, h]

/-- Witness for C4: with the first two candidates rate-limited and the
third healthy, the third's handle is returned and the attempts stop there. -/
theorem fallback_returns_first_success_witness :
    envW4.probe "openai/gpt-oss-120b" = ProbeResult.rateLimited ∧
    envW4.probe "llama-3.1-8b-instant" = ProbeResult.rateLimited ∧
    envW4.probe "gemma2-9b-it" = ProbeResult.success ∧
    get_groq_llm_with_fallback envW4 = Except.ok "gemma2-9b-it" ∧
    groqAttempts envW4 = ["openai/gpt-oss-120b", "llama-3.1-8b-instant", "gemma2-9b-it"] :=
  ⟨rfl, rfl, rfl,
    (fallback_returns_first_success envW4 ["openai/gpt-oss-120b", "llama-3.1-8b-instant"]
      [] "gemma2-9b-it" rfl (by decide) rfl).1,
    (fallback_returns_first_success envW4 ["openai/gpt-oss-120b", "llama-3.1-8b-instant"]
      [] "gemma2-9b-it" rfl (by decide) rfl).2⟩

/-- C5: the terminal backend-exhaustion error is raised exactly when every
candidate fails its construction or probe; it is the only error the
function ever surfaces; and in the all-fail case the candidate list is
attempted exactly once, in full, with no handle returned. -/
theorem fallback_exhaustion (env : Env) :
    (get_groq_llm_with_fallback env = .error exhaustMsg ↔
      ∀ x ∈ model_priority env, env.probe x ≠ ProbeResult.success) ∧
    (∀ e, get_groq_llm_with_fallback env = .error e → e = exhaustMsg) ∧
    ((∀ x ∈ model_priority env, env.probe x ≠ ProbeResult.success) →
      groqAttempts env = model_priority env) := by
  refine ⟨⟨?_, ?_⟩, ?_, ?_⟩
  · intro h
    rw [get_groq_llm_with_fallback] at h
    cases ht : (tryModels env.probe (model_priority env)).2 with
    | none => exact (tryModels_none_iff _ _).mp ht
    | some m => rw [ht] at h; cases h
  · intro h
    rw [get_groq_llm_with_fallback, tryModels_all_fail _ _ h]
  · intro e h
    rw [get_groq_llm_with_fallback] at h
    cases ht : (tryModels env.probe (model_priority env)).2 with
    | none => rw [ht] at h; injection h with h'; exact h'.symm
    | some m => rw [ht] at h; cases h
  · intro h
    rw [groqAttempts, tryModels_all_fail _ _ h]

/-- Witness for C5: with all three candidates rate-limited, the call
surfaces exactly the exhaustion error after attempting the full list. -/
theorem fallback_exhaustion_witness :
    envE5.probe "openai/gpt-oss-120b" = ProbeResult.rateLimited ∧
    envE5.probe "llama-3.1-8b-instant" = ProbeResult.rateLimited ∧
    envE5.probe "gemma2-9b-it" = ProbeResult.rateLimited ∧
    get_groq_llm_with_fallback envE5 = Except.error exhaustMsg ∧
    groqAttempts envE5 = model_priority envE5 :=
  ⟨rfl, rfl, rfl,
    (fallback_exhaustion envE5).1.mpr (by decide),
    (fallback_exhaustion envE5).2.2 (by decide)⟩

/-- Every error `get_llm` surfaces for the groq provider is the
backend-exhaustion message. -/
theorem get_llm_groq_error {env : Env} {e : String}
    (h : get_llm env "groq" = .error e) : e = exhaustMsg := by
  rw [get_llm] at h
  simp only [show (("groq" == "openai") = false) from rfl,
    show (("groq" == "groq") = true) from rfl, if_false, if_true,
    Bool.false_eq_true, reduceIte] at h
  rw [get_groq_llm_with_fallback] at h
  cases ht : (tryModels env.probe (model_priority env)).2 with
  | none => rw [ht] at h; injection h with h'; exact h'.symm
  | some m => rw [ht] at h; cases h

/-- Every successful `weather_agent` run writes exactly one pair, into
`weather_forecast`, and the written text is non-empty whenever successful
chat round-trips return non-empty text. -/
theorem weather_shape {env : Env} {s : TravelState} {u : Update} {b : Bool}
    (h : weather_agent env s = .ok (u, b)) :
    ∃ c, u = [(StateField.weather_forecast, Value.str c)] ∧ (GoodLLM env → c ≠ "") := by
  rw [weather_agent] at h
  cases h1 : get_llm env "groq" with
  | error e => rw [h1] at h; cases h
  | ok mm =>
    simp only [h1] at h
    cases h2 : env.geocode s.destination with
    | none =>
      simp only [h2] at h
      injection h with h'
      obtain ⟨hu, _⟩ := Prod.mk.injEq .. |>.mp h'
      exact ⟨_, hu.symm, fun _ =>
        append_left_ne_empty _ _ (append_left_ne_empty _ _ (by decide))⟩
    | some p =>
      obtain ⟨la, lo⟩ := p
      simp only [h2] at h
      by_cases hz : la = 0 ∨ lo = 0
      · rw [if_pos hz] at h
        injection h with h'
        obtain ⟨hu, _⟩ := Prod.mk.injEq .. |>.mp h'
        exact ⟨_, hu.symm, fun _ =>
          append_left_ne_empty _ _ (append_left_ne_empty _ _ (by decide))⟩
      · rw [if_neg hz] at h
        cases h3 : env.weatherFetch la lo s.start_date s.end_date with
        | failed =>
          simp only [h3] at h
          injection h with h'
          obtain ⟨hu, _⟩ := Prod.mk.injEq .. |>.mp h'
          exact ⟨_, hu.symm, fun _ =>
            append_left_ne_empty _ _ (append_left_ne_empty _ _ (by decide))⟩
        | noDaily =>
          simp only [h3] at h
          injection h with h'
          obtain ⟨hu, _⟩ := Prod.mk.injEq .. |>.mp h'
          exact ⟨_, hu.symm, fun _ =>
            append_left_ne_empty _ _ (append_left_ne_empty _ _ (by decide))⟩
        | daily =>
          cases h4 : env.llmResp .weather_agent with
          | ok c =>
            simp only [h3, h4] at h
            injection h with h'
            obtain ⟨hu, _⟩ := Prod.mk.injEq .. |>.mp h'
            exact ⟨c, hu.symm, fun hg => hg _ c h4⟩
          | error e =>
            simp only [h3, h4] at h
            injection h with h'
            obtain ⟨hu, _⟩ := Prod.mk.injEq .. |>.mp h'
            refine ⟨_, hu.symm, fun _ => ?_⟩
            exact append_left_ne_empty _ _ (append_left_ne_empty _ _
              (append_left_ne_empty _ _ (append_left_ne_empty _ _
                (append_left_ne_empty _ _ (append_left_ne_empty _ _ (by decide))))))

/-- Every successful node run returns exactly one key/value pair: a string
written into the node's owned field; the string is non-empty whenever
successful chat round-trips return non-empty text. -/
theorem nodeRun_shape {env : Env} {n : Node} {s : TravelState} {u : Update}
    (h : nodeRun env n s = .ok u) :
    ∃ c, u = [(ownedField n, Value.str c)] ∧ (GoodLLM env → c ≠ "") := by
  cases n with
  | visa_agent =>
    simp only [nodeRun] at h
    rw [visa_agent] at h
    cases h1 : get_llm env "groq" with
    | error e => rw [h1] at h; cases h
    | ok mm =>
      rw [h1] at h
      cases h2 : env.llmResp .visa_agent with
      | error e => rw [h2] at h; cases h
      | ok c =>
        rw [h2] at h
        injection h with h'
        exact ⟨c, h'.symm, fun hg => hg _ c h2⟩
  | weather_agent =>
    simp only [nodeRun] at h
    cases hw : weather_agent env s with
    | error e => rw [hw] at h; cases h
    | ok p =>
      obtain ⟨u', b⟩ := p
      rw [hw] at h
      simp only [Except.map] at h
      injection h with h'
      obtain ⟨c, hc, hne⟩ := weather_shape hw
      exact ⟨c, h'.symm.trans hc, hne⟩
  | itinerary_builder =>
    simp only [nodeRun] at h
    rw [itinerary_builder] at h
    cases h1 : get_llm env "groq" with
    | error e => rw [h1] at h; cases h
    | ok mm =>
      rw [h1] at h
      cases h2 : env.llmResp .itinerary_builder with
      | error e => rw [h2] at h; cases h
      | ok c =>
        rw [h2] at h
        injection h with h'
        exact ⟨c, h'.symm, fun hg => hg _ c h2⟩
  | hotel_recommender =>
    simp only [nodeRun] at h
    rw [hotel_recommender] at h
    cases ha : env.amadeusInit with
    | error e =>
      rw [ha] at h
      injection h with h'
      exact ⟨_, h'.symm, fun _ => by decide⟩
    | ok uu =>
      rw [ha] at h
      cases h1 : get_llm env "groq" with
      | error e => rw [h1] at h; cases h
      | ok mm =>
        rw [h1] at h
        cases h2 : env.llmResp .hotel_recommender with
        | ok c =>
          rw [h2] at h
          injection h with h'
          exact ⟨c, h'.symm, fun hg => hg _ c h2⟩
        | error e =>
          rw [h2] at h
          injection h with h'
          exact ⟨_, h'.symm, fun _ => append_left_ne_empty _ _ (append_left_ne_empty _ _ (by decide))⟩
  | activity_finder =>
    simp only [nodeRun] at h
    rw [activity_finder] at h
    cases h1 : get_llm env "groq" with
    | error e => rw [h1] at h; cases h
    | ok mm =>
      rw [h1] at h
      cases h2 : env.llmResp .activity_finder with
      | error e => rw [h2] at h; cases h
      | ok c =>
        rw [h2] at h
        injection h with h'
        exact ⟨c, h'.symm, fun hg => hg _ c h2⟩

/-- C8: every node's successful update writes exactly the single derived
field that node owns (visa_agent → visa_info, weather_agent →
weather_forecast, itinerary_builder → itinerary, hotel_recommender →
suggested_hotels, activity_finder → suggested_activities); the ownership
map is injective, so no two nodes write the same derived field; and no
node's owned field is the control field include_activities. -/
theorem nodes_write_only_owned_field :
    (∀ env n s u, nodeRun env n s = Except.ok u → u.map Prod.fst = [ownedField n]) ∧
    (∀ n m, ownedField n = ownedField m → n = m) ∧
    (∀ n, ownedField n ≠ StateField.include_activities) ∧
    ownedField .visa_agent = .visa_info ∧ ownedField .weather_agent = .weather_forecast ∧
    ownedField .itinerary_builder = .itinerary ∧
    ownedField .hotel_recommender = .suggested_hotels ∧
    ownedField .activity_finder = .suggested_activities := by
  refine ⟨?_, ?_, ?_, rfl, rfl, rfl, rfl, rfl⟩
  · intro env n s u h
    obtain ⟨c, hc, _⟩ := nodeRun_shape h
    rw [hc]
    rfl
  · intro n m h
    cases n <;> cases m <;> simp_all [ownedField]
  · intro n
    cases n <;> simp [ownedField]

/-- Witness for C8: a concrete successful visa run writes exactly the
owned field of the visa node. -/
theorem nodes_write_only_owned_field_witness :
    nodeRun envW Node.visa_agent sW = Except.ok [(StateField.visa_info, Value.str "ok")] ∧
    ([(StateField.visa_info, Value.str "ok")] : Update).map Prod.fst = [ownedField Node.visa_agent] :=
  ⟨rfl, nodes_write_only_owned_field.1 envW Node.visa_agent sW _ rfl⟩

/-- C7: the conditional router is a deterministic, side-effect-free
function of the record's control field alone (the embedding of
`should_find_activities` is a pure function of the record, so repeated
evaluation trivially agrees; it depends only on `include_activities`), and
its result is always one of exactly two destinations: the activity node or
the terminal marker. -/
theorem router_deterministic_two_valued :
    (∀ s t : TravelState, s.include_activities = t.include_activities →
      should_find_activities s = should_find_activities t) ∧
    (∀ s : TravelState, should_find_activities s = NextStep.next Node.activity_finder ∨
      should_find_activities s = NextStep.terminal) := by
  constructor
  · intro s t h
    simp [should_find_activities, h]
  · intro s
    by_cases h : s.include_activities.getD false <;> simp [should_find_activities, h]

/-- Witness for C7: two records that agree on the control field but differ
elsewhere route identically, and the destination is one of the two values. -/
theorem router_deterministic_two_valued_witness :
    sWT.include_activities = sB.include_activities ∧
    should_find_activities sWT = should_find_activities sB ∧
    (should_find_activities sWT = NextStep.next Node.activity_finder ∨
      should_find_activities sWT = NextStep.terminal) :=
  ⟨rfl, router_deterministic_two_valued.1 sWT sB rfl,
    router_deterministic_two_valued.2 sWT⟩

/-- C10: when geocoding returns a latitude or longitude equal to 0, the
`if not lat or not lon` truthiness check treats the lookup as failed: the
node returns the "Unable to get weather data" placeholder and the weather
fetch is never performed (the returned flag is `false`). -/
theorem weather_zero_coordinate_is_failure (env : Env) (s : TravelState)
    (mm : String) (la lo : Rat)
    (hacq : get_llm env "groq" = .ok mm)
    (hgeo : env.geocode s.destination = some (la, lo))
    (hzero : la = 0 ∨ lo = 0) :
    weather_agent env s =
      .ok ([(StateField.weather_forecast, Value.str (unableMsg s.destination))], false) := by
  rw [weather_agent]
  simp only [hacq, hgeo]
  rw [if_pos hzero]

/-- Witness for C10: a concrete environment whose geocoder reports
latitude 0 makes the weather node return the placeholder without fetching. -/
theorem weather_zero_coordinate_is_failure_witness :
    get_llm envZ "groq" = Except.ok "openai/gpt-oss-120b" ∧
    envZ.geocode sW.destination = some (0, 5) ∧
    ((0 : Rat) = 0 ∨ (5 : Rat) = 0) ∧
    weather_agent envZ sW =
      .ok ([(StateField.weather_forecast, Value.str (unableMsg sW.destination))], false) :=
  ⟨rfl, rfl, Or.inl rfl,
    weather_zero_coordinate_is_failure envZ sW "openai/gpt-oss-120b" 0 5 rfl rfl (Or.inl rfl)⟩

/-- The only error `weather_agent` ever surfaces is the one raised by model
acquisition. -/
theorem weather_error_from_acquisition {env : Env} {s : TravelState} {e : String}
    (h : weather_agent env s = .error e) : get_llm env "groq" = .error e := by
  rw [weather_agent] at h
  cases h1 : get_llm env "groq" with
  | error f =>
    simp only [h1] at h
    injection h with h'
    rw [h']
  | ok mm =>
    exfalso
    simp only [h1] at h
    cases h2 : env.geocode s.destination with
    | none => simp only [h2] at h; cases h
    | some p =>
      obtain ⟨la, lo⟩ := p
      simp only [h2] at h
      by_cases hz : la = 0 ∨ lo = 0
      · rw [if_pos hz] at h; cases h
      · rw [if_neg hz] at h
        cases h3 : env.weatherFetch la lo s.start_date s.end_date with
        | failed => simp only [h3] at h; cases h
        | noDaily => simp only [h3] at h; cases h
        | daily =>
          cases h4 : env.llmResp .weather_agent with
          | ok c => simp only [h3, h4] at h; cases h
          | error f => simp only [h3, h4] at h; cases h

/-- The only error `hotel_recommender` ever surfaces is the one raised by
model acquisition. -/
theorem hotel_error_from_acquisition {env : Env} {s : TravelState} {e : String}
    (h : hotel_recommender env s = .error e) : get_llm env "groq" = .error e := by
  rw [hotel_recommender] at h
  cases ha : env.amadeusInit with
  | error f => simp only [ha] at h; cases h
  | ok uu =>
    simp only [ha] at h
    cases h1 : get_llm env "groq" with
    | error f =>
      simp only [h1] at h
      injection h with h'
      rw [h']
    | ok mm =>
      exfalso
      simp only [h1] at h
      cases h2 : env.llmResp .hotel_recommender with
      | ok c => simp only [h2] at h; cases h
      | error f => simp only [h2] at h; cases h

/-- Counterexample to C3 as stated: a concrete environment whose chat
invocation raises an ordinary connection error (while model acquisition
succeeds) makes `visa_agent` raise instead of returning a degraded
message — so not every node absorbs ordinary upstream failures. -/
theorem node_failure_absorption_cex :
    visa_agent envC3 sW = Except.error "Connection error" := rfl

/-- C3 (amended): only `weather_agent` and `hotel_recommender` absorb
ordinary upstream failures — any error either of them surfaces is the
backend-exhaustion error from model acquisition.  `visa_agent`,
`itinerary_builder` and `activity_finder` catch nothing around their chat
invocation: when acquisition succeeds but the invocation raises an
ordinary error, the node re-raises that same error. -/
theorem node_failure_absorption :
    (∀ env s e, weather_agent env s = Except.error e → e = exhaustMsg) ∧
    (∀ env s e, hotel_recommender env s = Except.error e → e = exhaustMsg) ∧
    (∀ env s mm e, get_llm env "groq" = Except.ok mm →
      env.llmResp Node.visa_agent = Except.error e → visa_agent env s = Except.error e) ∧
    (∀ env s mm e, get_llm env "groq" = Except.ok mm →
      env.llmResp Node.itinerary_builder = Except.error e →
      itinerary_builder env s = Except.error e) ∧
    (∀ env s mm e, get_llm env "groq" = Except.ok mm →
      env.llmResp Node.activity_finder = Except.error e →
      activity_finder env s = Except.error e) := by
  refine ⟨?_, ?_, ?_, ?_, ?_⟩
  · intro env s e h
    exact get_llm_groq_error (weather_error_from_acquisition h)
  · intro env s e h
    exact get_llm_groq_error (hotel_error_from_acquisition h)
  · intro env s mm e hacq hresp
    rw [visa_agent]
    simp only [hacq, hresp]
  · intro env s mm e hacq hresp
    rw [itinerary_builder]
    simp only [hacq, hresp]
  · intro env s mm e hacq hresp
    rw [activity_finder]
    simp only [hacq, hresp]

/-- Witness for the amended C3: under `envC3`, acquisition succeeds, the
visa chat invocation raises, and the visa node surfaces that very error. -/
theorem node_failure_absorption_witness :
    get_llm envC3 "groq" = Except.ok "openai/gpt-oss-120b" ∧
    envC3.llmResp Node.visa_agent = Except.error "Connection error" ∧
    visa_agent envC3 sWT = Except.error "Connection error" :=
  ⟨rfl, rfl,
    node_failure_absorption.2.2.1 envC3 sWT "openai/gpt-oss-120b" "Connection error" rfl rfl⟩

/-- Inversion of one successful executor step. -/
theorem runStep_inv {env : Env}
    {re : Node → TravelState → Except String (List Node × TravelState)}
    {n : Node} {s : TravelState} {tr : List Node} {sf : TravelState}
    (h : runStep env re n s = .ok (tr, sf)) :
    ∃ u, nodeRun env n s = .ok u ∧
      ((successor n (applyUpdate s u) = .terminal ∧ tr = [n] ∧ sf = applyUpdate s u) ∨
       (∃ m tr2, successor n (applyUpdate s u) = .next m ∧
         re m (applyUpdate s u) = .ok (tr2, sf) ∧ tr = n :: tr2)) := by
  rw [runStep] at h
  cases hu : nodeRun env n s with
  | error e => simp only [hu] at h; cases h
  | ok u =>
    simp only [hu] at h
    refine ⟨u, rfl, ?_⟩
    cases hsuc : successor n (applyUpdate s u) with
    | terminal =>
      simp only [hsuc] at h
      injection h with h'
      obtain ⟨h1, h2⟩ := Prod.mk.injEq .. |>.mp h'
      exact Or.inl ⟨rfl, h1.symm, h2.symm⟩
    | next m =>
      simp only [hsuc] at h
      cases hr : re m (applyUpdate s u) with
      | error e => simp only [hr] at h; cases h
      | ok r =>
        simp only [hr] at h
        injection h with h'
        obtain ⟨h1, h2⟩ := Prod.mk.injEq .. |>.mp h'
        exact Or.inr ⟨m, r.1, rfl, by rw [hr, ← h2], h1.symm⟩

set_option maxHeartbeats 1000000 in
/-- Master characterisation of a completed run: the input fields are
preserved, the visiting order is fixed by the control flag, and every
derived field owned by a visited node is populated (with non-empty text
whenever successful chat round-trips return non-empty text). -/
theorem run_spec {env : Env} {s : TravelState} {tr : List Node} {sf : TravelState}
    (h : run_travel_planning env s = .ok (tr, sf)) :
    inputsEq s sf ∧
    tr = (if s.include_activities.getD false then
        [Node.visa_agent, Node.weather_agent, Node.itinerary_builder,
          Node.hotel_recommender, Node.activity_finder]
      else
        [Node.visa_agent, Node.weather_agent, Node.itinerary_builder,
          Node.hotel_recommender]) ∧
    (∃ c, sf.visa_info = some c ∧ (GoodLLM env → c ≠ "")) ∧
    (∃ c, sf.weather_forecast = some c ∧ (GoodLLM env → c ≠ "")) ∧
    (∃ c, sf.itinerary = some c ∧ (GoodLLM env → c ≠ "")) ∧
    (∃ c, sf.suggested_hotels = some c ∧ (GoodLLM env → c ≠ "")) ∧
    (if s.include_activities.getD false then
        ∃ c, sf.suggested_activities = some c ∧ (GoodLLM env → c ≠ "")
      else sf.suggested_activities = s.suggested_activities) := by
  have h0 : runStep env (runFrom env 5) Node.visa_agent s = .ok (tr, sf) := h
  obtain ⟨u1, hu1, hx1⟩ := runStep_inv h0
  obtain ⟨c1, rfl, hn1⟩ := nodeRun_shape hu1
  rw [show applyUpdate s [(ownedField Node.visa_agent, Value.str c1)] =
      { s with visa_info := some c1 } from rfl] at hx1
  rcases hx1 with ⟨habs, _, _⟩ | ⟨m2, tr2, hs1, h1, htr1⟩
  · exact absurd habs (by simp [successor])
  · simp only [successor] at hs1
    injection hs1 with hm2
    subst hm2
    have h1' : runStep env (runFrom env 4) Node.weather_agent
        { s with visa_info := some c1 } = .ok (tr2, sf) := h1
    obtain ⟨u2, hu2, hx2⟩ := runStep_inv h1'
    obtain ⟨c2, rfl, hn2⟩ := nodeRun_shape hu2
    rw [show applyUpdate { s with visa_info := some c1 }
        [(ownedField Node.weather_agent, Value.str c2)] =
        { s with visa_info := some c1, weather_forecast := some c2 } from rfl] at hx2
    rcases hx2 with ⟨habs, _, _⟩ | ⟨m3, tr3, hs2, h2, htr2⟩
    · exact absurd habs (by simp [successor])
    · simp only [successor] at hs2
      injection hs2 with hm3
      subst hm3
      have h2' : runStep env (runFrom env 3) Node.itinerary_builder
          { s with visa_info := some c1, weather_forecast := some c2 } = .ok (tr3, sf) := h2
      obtain ⟨u3, hu3, hx3⟩ := runStep_inv h2'
      obtain ⟨c3, rfl, hn3⟩ := nodeRun_shape hu3
      rw [show applyUpdate { s with visa_info := some c1, weather_forecast := some c2 }
          [(ownedField Node.itinerary_builder, Value.str c3)] =
          { s with visa_info := some c1, weather_forecast := some c2, itinerary := some c3 } from rfl] at hx3
      rcases hx3 with ⟨habs, _, _⟩ | ⟨m4, tr4, hs3, h3, htr3⟩
      · exact absurd habs (by simp [successor])
      · simp only [successor] at hs3
        injection hs3 with hm4
        subst hm4
        have h3' : runStep env (runFrom env 2) Node.hotel_recommender
            { s with visa_info := some c1, weather_forecast := some c2, itinerary := some c3 } = .ok (tr4, sf) := h3
        obtain ⟨u4, hu4, hx4⟩ := runStep_inv h3'
        obtain ⟨c4, rfl, hn4⟩ := nodeRun_shape hu4
        rw [show applyUpdate { s with visa_info := some c1, weather_forecast := some c2, itinerary := some c3 }
            [(ownedField Node.hotel_recommender, Value.str c4)] =
            { s with visa_info := some c1, weather_forecast := some c2, itinerary := some c3, suggested_hotels := some c4 } from rfl] at hx4
        have hsucc4 : successor Node.hotel_recommender
            { s with visa_info := some c1, weather_forecast := some c2, itinerary := some c3, suggested_hotels := some c4 } =
            (if s.include_activities.getD false then NextStep.next Node.activity_finder
              else NextStep.terminal) := rfl
        cases hflag : s.include_activities.getD false with
        | false =>
          rw [hflag] at hsucc4
          simp only [Bool.false_eq_true, if_false] at hsucc4
          rcases hx4 with ⟨_, htr4, hsf⟩ | ⟨m5, tr5, hs4, _, _⟩
          · subst hsf
            subst htr4
            subst htr3
            subst htr2
            subst htr1
            refine ⟨⟨rfl, rfl, rfl, rfl, rfl, rfl, rfl, rfl, rfl⟩, ?_,
              ⟨c1, rfl, hn1⟩, ⟨c2, rfl, hn2⟩, ⟨c3, rfl, hn3⟩, ⟨c4, rfl, hn4⟩, ?_⟩
            · rw [if_neg (by decide)]
            · rw [if_neg (by decide)]
          · rw [hsucc4] at hs4
            cases hs4
        | true =>
          rw [hflag] at hsucc4
          simp only [if_true] at hsucc4
          rcases hx4 with ⟨hs4, _, _⟩ | ⟨m5, tr5, hs4, h4, htr4⟩
          · rw [hsucc4] at hs4
            cases hs4
          · rw [hsucc4] at hs4
            injection hs4 with hm5
            subst hm5
            have h4' : runStep env (runFrom env 1) Node.activity_finder
                { s with visa_info := some c1, weather_forecast := some c2, itinerary := some c3, suggested_hotels := some c4 } = .ok (tr5, sf) := h4
            obtain ⟨u5, hu5, hx5⟩ := runStep_inv h4'
            obtain ⟨c5, rfl, hn5⟩ := nodeRun_shape hu5
            rw [show applyUpdate { s with visa_info := some c1, weather_forecast := some c2, itinerary := some c3, suggested_hotels := some c4 }
                [(ownedField Node.activity_finder, Value.str c5)] =
                { s with visa_info := some c1, weather_forecast := some c2, itinerary := some c3, suggested_hotels := some c4, suggested_activities := some c5 } from rfl] at hx5
            rcases hx5 with ⟨_, htr5, hsf⟩ | ⟨m6, tr6, hs5, _, _⟩
            · subst hsf
              subst htr5
              subst htr4
              subst htr3
              subst htr2
              subst htr1
              refine ⟨⟨rfl, rfl, rfl, rfl, rfl, rfl, rfl, rfl, rfl⟩, ?_,
                ⟨c1, rfl, hn1⟩, ⟨c2, rfl, hn2⟩, ⟨c3, rfl, hn3⟩, ⟨c4, rfl, hn4⟩, ?_⟩
              · rw [if_pos rfl]
              · rw [if_pos rfl]
                exact ⟨c5, rfl, hn5⟩
            · exact absurd hs5 (by simp [successor])

/-- C1: for every valid initial record, a completed run visits
visa_agent, weather_agent, itinerary_builder, hotel_recommender in exactly
that order; when the control flag is false activity_finder is never
visited, and when it is true activity_finder is additionally visited
last, after hotel_recommender. -/
theorem run_executes_nodes_in_order (env : Env) (s : TravelState)
    (hv : ValidInitial s) (tr : List Node) (sf : TravelState)
    (h : run_travel_planning env s = .ok (tr, sf)) :
    tr = (if s.include_activities.getD false then
        [Node.visa_agent, Node.weather_agent, Node.itinerary_builder,
          Node.hotel_recommender, Node.activity_finder]
      else
        [Node.visa_agent, Node.weather_agent, Node.itinerary_builder,
          Node.hotel_recommender]) ∧
    ((Node.activity_finder ∈ tr) ↔ s.include_activities.getD false = true) := by
  obtain ⟨_, htr, _⟩ := run_spec h
  refine ⟨htr, ?_⟩
  rw [htr]
  cases hflag : s.include_activities.getD false <;> simp [hflag]

/-- Witness for C1: a concrete flag-true run visits all five nodes in the
fixed order, activities last. -/
theorem run_executes_nodes_in_order_witness :
    ValidInitial sWT ∧
    run_travel_planning envW sWT = Except.ok (trW5, sfW5) ∧
    trW5 = (if sWT.include_activities.getD false then
        [Node.visa_agent, Node.weather_agent, Node.itinerary_builder,
          Node.hotel_recommender, Node.activity_finder]
      else
        [Node.visa_agent, Node.weather_agent, Node.itinerary_builder,
          Node.hotel_recommender]) ∧
    ((Node.activity_finder ∈ trW5) ↔ sWT.include_activities.getD false = true) :=
  ⟨by decide, rfl,
    (run_executes_nodes_in_order envW sWT (by decide) trW5 sfW5 rfl).1,
    (run_executes_nodes_in_order envW sWT (by decide) trW5 sfW5 rfl).2⟩

/-- Counterexample to C2 as stated: with every chat round-trip returning
empty text (which the node code stores unchecked), a valid run completes
with `visa_info` present but EMPTY, so the final record does not always
contain non-empty values for the derived fields. -/
theorem run_populates_fields_cex :
    ValidInitial sW ∧
    (run_travel_planning envE sW).map (fun p => p.2.visa_info) = Except.ok (some "") :=
  ⟨by decide, rfl⟩

/-- C2 (amended): for every valid initial record, a completed run returns
a record in which visa_info, weather_forecast, itinerary and
suggested_hotels are all present, and non-empty provided every successful
chat round-trip returns non-empty text (the degraded placeholders written
by the code are always non-empty); the suggested_activities field is
present if and only if include_activities was true. -/
theorem run_populates_fields (env : Env) (s : TravelState)
    (hv : ValidInitial s) (hg : GoodLLM env) (tr : List Node) (sf : TravelState)
    (h : run_travel_planning env s = .ok (tr, sf)) :
    sf.visa_info.getD "" ≠ "" ∧ sf.weather_forecast.getD "" ≠ "" ∧
    sf.itinerary.getD "" ≠ "" ∧ sf.suggested_hotels.getD "" ≠ "" ∧
    (sf.suggested_activities.isSome = true ↔ s.include_activities.getD false = true) := by
  obtain ⟨_, _, ⟨c1, hc1, hn1⟩, ⟨c2, hc2, hn2⟩, ⟨c3, hc3, hn3⟩, ⟨c4, hc4, hn4⟩, hact⟩ :=
    run_spec h
  refine ⟨?_, ?_, ?_, ?_, ?_⟩
  · rw [hc1]; simpa using hn1 hg
  · rw [hc2]; simpa using hn2 hg
  · rw [hc3]; simpa using hn3 hg
  · rw [hc4]; simpa using hn4 hg
  · cases hflag : s.include_activities.getD false with
    | false =>
      rw [hflag] at hact
      simp only [Bool.false_eq_true, if_false] at hact
      rw [hact, hv.2.2.2.2.1]
      simp
    | true =>
      rw [hflag] at hact
      simp only [if_true] at hact
      obtain ⟨c5, hc5, _⟩ := hact
      rw [hc5]
      simp

/-- Every successful chat round-trip of `envW` returns the non-empty text
"ok". -/
theorem goodLLM_envW : GoodLLM envW := by
  intro n r h
  injection h with h'
  subst h'
  decide

/-- Witness for C2 (amended): a concrete healthy flag-true run populates
all five derived fields with non-empty text. -/
theorem run_populates_fields_witness :
    ValidInitial sWT ∧ GoodLLM envW ∧
    run_travel_planning envW sWT = Except.ok (trW5, sfW5) ∧
    (sfW5.visa_info.getD "" ≠ "" ∧ sfW5.weather_forecast.getD "" ≠ "" ∧
      sfW5.itinerary.getD "" ≠ "" ∧ sfW5.suggested_hotels.getD "" ≠ "" ∧
      (sfW5.suggested_activities.isSome = true ↔ sWT.include_activities.getD false = true)) :=
  ⟨by decide, goodLLM_envW, rfl,
    run_populates_fields envW sWT (by decide) goodLLM_envW trW5 sfW5 rfl⟩

/-- C9: the returned record agrees with the initial record on every input
field (origin_country, destination, budget_type, trip_type, num_people,
start_date, end_date, additional_comments, include_activities): a run
never mutates an input field. -/
theorem run_preserves_inputs (env : Env) (s : TravelState)
    (tr : List Node) (sf : TravelState)
    (h : run_travel_planning env s = .ok (tr, sf)) :
    sf.origin_country = s.origin_country ∧ sf.destination = s.destination ∧
    sf.budget_type = s.budget_type ∧ sf.trip_type = s.trip_type ∧
    sf.num_people = s.num_people ∧ sf.start_date = s.start_date ∧
    sf.end_date = s.end_date ∧ sf.additional_comments = s.additional_comments ∧
    sf.include_activities = s.include_activities := by
  obtain ⟨hi, _⟩ := run_spec h
  obtain ⟨e1, e2, e3, e4, e5, e6, e7, e8, e9⟩ := hi
  exact ⟨e1.symm, e2.symm, e3.symm, e4.symm, e5.symm, e6.symm, e7.symm, e8.symm, e9.symm⟩

/-- Witness for C9: on a concrete completed run the final record agrees
with the initial one on all nine input fields. -/
theorem run_preserves_inputs_witness :
    run_travel_planning envW sW = Except.ok (trW, sfW) ∧
    (sfW.origin_country = sW.origin_country ∧ sfW.destination = sW.destination ∧
      sfW.budget_type = sW.budget_type ∧ sfW.trip_type = sW.trip_type ∧
      sfW.num_people = sW.num_people ∧ sfW.start_date = sW.start_date ∧
      sfW.end_date = sW.end_date ∧ sfW.additional_comments = sW.additional_comments ∧
      sfW.include_activities = sW.include_activities) :=
  ⟨rfl, run_preserves_inputs envW sW trW sfW rfl⟩

/-- Forward computation of one executor step ending at a terminal edge. -/
theorem runStep_terminal {env : Env}
    {re : Node → TravelState → Except String (List Node × TravelState)}
    {n : Node} {s : TravelState} {u : Update}
    (hu : nodeRun env n s = .ok u)
    (hsuc : successor n (applyUpdate s u) = .terminal) :
    runStep env re n s = .ok ([n], applyUpdate s u) := by
  rw [runStep]
  simp only [hu, hsuc]

/-- Forward computation of one executor step following a static or
conditional edge to a next node whose own run succeeded. -/
theorem runStep_next {env : Env}
    {re : Node → TravelState → Except String (List Node × TravelState)}
    {n : Node} {s : TravelState} {u : Update} {m : Node}
    {r : List Node × TravelState}
    (hu : nodeRun env n s = .ok u)
    (hsuc : successor n (applyUpdate s u) = .next m)
    (hr : re m (applyUpdate s u) = .ok r) :
    runStep env re n s = .ok (n :: r.1, r.2) := by
  rw [runStep]
  simp only [hu, hsuc, hr]

/-- C6: if the geocoding lookup for the destination fails or returns no
results, the weather node returns normally and the final record's
weather_forecast is the placeholder message mentioning the destination,
while the subsequent itinerary and hotel nodes still execute and populate
their own fields (model acquisition and the visa/itinerary/activities chat
round-trips are assumed healthy, since those are unrelated failure modes). -/
theorem weather_geocode_failure_pipeline_continues (env : Env) (s : TravelState)
    (hgeo : env.geocode s.destination = none)
    (hacq : (get_llm env "groq").isOk = true)
    (hvisa : (env.llmResp Node.visa_agent).isOk = true)
    (hitin : (env.llmResp Node.itinerary_builder).isOk = true)
    (hactv : (env.llmResp Node.activity_finder).isOk = true) :
    (run_travel_planning env s).isOk = true ∧
    (run_travel_planning env s).toOption.map (fun p => p.2.weather_forecast) =
      some (some (unableMsg s.destination)) ∧
    mentions (unableMsg s.destination) s.destination ∧
    (run_travel_planning env s).toOption.map
      (fun p => (p.1.contains Node.itinerary_builder, p.1.contains Node.hotel_recommender)) =
      some (true, true) ∧
    (run_travel_planning env s).toOption.map
      (fun p => (p.2.itinerary.isSome, p.2.suggested_hotels.isSome)) = some (true, true) := by
  cases hM : get_llm env "groq" with
  | error e => rw [hM] at hacq; simp [Except.isOk, Except.toBool] at hacq
  | ok mm =>
  cases hcv : env.llmResp Node.visa_agent with
  | error e => rw [hcv] at hvisa; simp [Except.isOk, Except.toBool] at hvisa
  | ok cv =>
  cases hci : env.llmResp Node.itinerary_builder with
  | error e => rw [hci] at hitin; simp [Except.isOk, Except.toBool] at hitin
  | ok ci =>
  cases hca : env.llmResp Node.activity_finder with
  | error e => rw [hca] at hactv; simp [Except.isOk, Except.toBool] at hactv
  | ok ca =>
  have hvN : nodeRun env Node.visa_agent s = .ok [(StateField.visa_info, Value.str cv)] := by
    simp only [nodeRun]
    rw [visa_agent]
    simp only [hM, hcv]
  have hgeo1 : env.geocode ({ s with visa_info := some cv } : TravelState).destination = none := hgeo
  have hwA : weather_agent env { s with visa_info := some cv } =
      .ok ([(StateField.weather_forecast, Value.str (unableMsg s.destination))], false) := by
    rw [weather_agent]
    simp only [hM, hgeo1]
  have hwN : nodeRun env Node.weather_agent { s with visa_info := some cv } =
      .ok [(StateField.weather_forecast, Value.str (unableMsg s.destination))] := by
    simp only [nodeRun, hwA, Except.map]
  have hiN : nodeRun env Node.itinerary_builder
      { s with visa_info := some cv, weather_forecast := some (unableMsg s.destination) } =
      .ok [(StateField.itinerary, Value.str ci)] := by
    simp only [nodeRun]
    rw [itinerary_builder]
    simp only [hM, hci]
  obtain ⟨ch, hhN⟩ : ∃ ch, nodeRun env Node.hotel_recommender
      { s with visa_info := some cv, weather_forecast := some (unableMsg s.destination), itinerary := some ci } =
      .ok [(StateField.suggested_hotels, Value.str ch)] := by
    cases ha : env.amadeusInit with
    | error e =>
      refine ⟨"Unable to fetch hotel recommendations. Please check API credentials.", ?_⟩
      simp only [nodeRun]
      rw [hotel_recommender]
      simp only [ha]
    | ok uu =>
      cases hh : env.llmResp Node.hotel_recommender with
      | ok c =>
        refine ⟨c, ?_⟩
        simp only [nodeRun]
        rw [hotel_recommender]
        simp only [ha, hM, hh]
      | error e =>
        refine ⟨"Hotel recommendations temporarily unavailable. Please try again later. (Error: " ++ e ++ ")", ?_⟩
        simp only [nodeRun]
        rw [hotel_recommender]
        simp only [ha, hM, hh]
  have haN : nodeRun env Node.activity_finder
      { s with visa_info := some cv, weather_forecast := some (unableMsg s.destination), itinerary := some ci, suggested_hotels := some ch } =
      .ok [(StateField.suggested_activities, Value.str ca)] := by
    simp only [nodeRun]
    rw [activity_finder]
    simp only [hM, hca]
  cases hflag : s.include_activities.getD false with
  | false =>
    have hsucT : successor Node.hotel_recommender
        (applyUpdate { s with visa_info := some cv, weather_forecast := some (unableMsg s.destination), itinerary := some ci }
          [(StateField.suggested_hotels, Value.str ch)]) = NextStep.terminal := by
      show should_find_activities _ = NextStep.terminal
      rw [should_find_activities]
      rw [show (applyUpdate { s with visa_info := some cv, weather_forecast := some (unableMsg s.destination), itinerary := some ci }
          [(StateField.suggested_hotels, Value.str ch)]).include_activities = s.include_activities from rfl, hflag]
      rw [if_neg (by decide)]
    have rHot : runFrom env 3 Node.hotel_recommender
        { s with visa_info := some cv, weather_forecast := some (unableMsg s.destination), itinerary := some ci } =
        .ok ([Node.hotel_recommender],
          { s with visa_info := some cv, weather_forecast := some (unableMsg s.destination), itinerary := some ci, suggested_hotels := some ch }) := by
      have e0 : runFrom env 3 Node.hotel_recommender
          { s with visa_info := some cv, weather_forecast := some (unableMsg s.destination), itinerary := some ci } =
          runStep env (runFrom env 2) Node.hotel_recommender
          { s with visa_info := some cv, weather_forecast := some (unableMsg s.destination), itinerary := some ci } := rfl
      rw [e0]
      exact runStep_terminal hhN hsucT
    have rItin : runFrom env 4 Node.itinerary_builder
        { s with visa_info := some cv, weather_forecast := some (unableMsg s.destination) } =
        .ok ([Node.itinerary_builder, Node.hotel_recommender],
          { s with visa_info := some cv, weather_forecast := some (unableMsg s.destination), itinerary := some ci, suggested_hotels := some ch }) := by
      have e0 : runFrom env 4 Node.itinerary_builder
          { s with visa_info := some cv, weather_forecast := some (unableMsg s.destination) } =
          runStep env (runFrom env 3) Node.itinerary_builder
          { s with visa_info := some cv, weather_forecast := some (unableMsg s.destination) } := rfl
      rw [e0]
      exact runStep_next hiN rfl rHot
    have rWea : runFrom env 5 Node.weather_agent { s with visa_info := some cv } =
        .ok ([Node.weather_agent, Node.itinerary_builder, Node.hotel_recommender],
          { s with visa_info := some cv, weather_forecast := some (unableMsg s.destination), itinerary := some ci, suggested_hotels := some ch }) := by
      have e0 : runFrom env 5 Node.weather_agent { s with visa_info := some cv } =
          runStep env (runFrom env 4) Node.weather_agent { s with visa_info := some cv } := rfl
      rw [e0]
      exact runStep_next hwN rfl rItin
    have hrun : run_travel_planning env s =
        .ok ([Node.visa_agent, Node.weather_agent, Node.itinerary_builder, Node.hotel_recommender],
          { s with visa_info := some cv, weather_forecast := some (unableMsg s.destination), itinerary := some ci, suggested_hotels := some ch }) := by
      have e0 : run_travel_planning env s =
          runStep env (runFrom env 5) Node.visa_agent s := rfl
      rw [e0]
      exact runStep_next hvN rfl rWea
    refine ⟨?_, ?_, ⟨"Unable to get weather data for ", ". Please check the destination name.", rfl⟩, ?_, ?_⟩
    · rw [hrun]; rfl
    · rw [hrun]; rfl
    · rw [hrun]; rfl
    · rw [hrun]; rfl
  | true =>
    have hsucA : successor Node.hotel_recommender
        (applyUpdate { s with visa_info := some cv, weather_forecast := some (unableMsg s.destination), itinerary := some ci }
          [(StateField.suggested_hotels, Value.str ch)]) = NextStep.next Node.activity_finder := by
      show should_find_activities _ = NextStep.next Node.activity_finder
      rw [should_find_activities]
      rw [show (applyUpdate { s with visa_info := some cv, weather_forecast := some (unableMsg s.destination), itinerary := some ci }
          [(StateField.suggested_hotels, Value.str ch)]).include_activities = s.include_activities from rfl, hflag]
      rw [if_pos rfl]
    have rAct : runFrom env 2 Node.activity_finder
        { s with visa_info := some cv, weather_forecast := some (unableMsg s.destination), itinerary := some ci, suggested_hotels := some ch } =
        .ok ([Node.activity_finder],
          { s with visa_info := some cv, weather_forecast := some (unableMsg s.destination), itinerary := some ci, suggested_hotels := some ch, suggested_activities := some ca }) := by
      have e0 : runFrom env 2 Node.activity_finder
          { s with visa_info := some cv, weather_forecast := some (unableMsg s.destination), itinerary := some ci, suggested_hotels := some ch } =
          runStep env (runFrom env 1) Node.activity_finder
          { s with visa_info := some cv, weather_forecast := some (unableMsg s.destination), itinerary := some ci, suggested_hotels := some ch } := rfl
      rw [e0]
      exact runStep_terminal haN rfl
    have rHot : runFrom env 3 Node.hotel_recommender
        { s with visa_info := some cv, weather_forecast := some (unableMsg s.destination), itinerary := some ci } =
        .ok ([Node.hotel_recommender, Node.activity_finder],
          { s with visa_info := some cv, weather_forecast := some (unableMsg s.destination), itinerary := some ci, suggested_hotels := some ch, suggested_activities := some ca }) := by
      have e0 : runFrom env 3 Node.hotel_recommender
          { s with visa_info := some cv, weather_forecast := some (unableMsg s.destination), itinerary := some ci } =
          runStep env (runFrom env 2) Node.hotel_recommender
          { s with visa_info := some cv, weather_forecast := some (unableMsg s.destination), itinerary := some ci } := rfl
      rw [e0]
      exact runStep_next hhN hsucA rAct
    have rItin : runFrom env 4 Node.itinerary_builder
        { s with visa_info := some cv, weather_forecast := some (unableMsg s.destination) } =
        .ok ([Node.itinerary_builder, Node.hotel_recommender, Node.activity_finder],
          { s with visa_info := some cv, weather_forecast := some (unableMsg s.destination), itinerary := some ci, suggested_hotels := some ch, suggested_activities := some ca }) := by
      have e0 : runFrom env 4 Node.itinerary_builder
          { s with visa_info := some cv, weather_forecast := some (unableMsg s.destination) } =
          runStep env (runFrom env 3) Node.itinerary_builder
          { s with visa_info := some cv, weather_forecast := some (unableMsg s.destination) } := rfl
      rw [e0]
      exact runStep_next hiN rfl rHot
    have rWea : runFrom env 5 Node.weather_agent { s with visa_info := some cv } =
        .ok ([Node.weather_agent, Node.itinerary_builder, Node.hotel_recommender, Node.activity_finder],
          { s with visa_info := some cv, weather_forecast := some (unableMsg s.destination), itinerary := some ci, suggested_hotels := some ch, suggested_activities := some ca }) := by
      have e0 : runFrom env 5 Node.weather_agent { s with visa_info := some cv } =
          runStep env (runFrom env 4) Node.weather_agent { s with visa_info := some cv } := rfl
      rw [e0]
      exact runStep_next hwN rfl rItin
    have hrun : run_travel_planning env s =
        .ok ([Node.visa_agent, Node.weather_agent, Node.itinerary_builder, Node.hotel_recommender, Node.activity_finder],
          { s with visa_info := some cv, weather_forecast := some (unableMsg s.destination), itinerary := some ci, suggested_hotels := some ch, suggested_activities := some ca }) := by
      have e0 : run_travel_planning env s =
          runStep env (runFrom env 5) Node.visa_agent s := rfl
      rw [e0]
      exact runStep_next hvN rfl rWea
    refine ⟨?_, ?_, ⟨"Unable to get weather data for ", ". Please check the destination name.", rfl⟩, ?_, ?_⟩
    · rw [hrun]; rfl
    · rw [hrun]; rfl
    · rw [hrun]; rfl
    · rw [hrun]; rfl

/-- Witness for C6: a concrete run whose geocoder is unreachable completes
with the placeholder weather message and populated itinerary/hotel fields. -/
theorem weather_geocode_failure_pipeline_continues_witness :
    envC6.geocode sW.destination = none ∧
    (get_llm envC6 "groq").isOk = true ∧
    (envC6.llmResp Node.visa_agent).isOk = true ∧
    (envC6.llmResp Node.itinerary_builder).isOk = true ∧
    (envC6.llmResp Node.activity_finder).isOk = true ∧
    ((run_travel_planning envC6 sW).isOk = true ∧
      (run_travel_planning envC6 sW).toOption.map (fun p => p.2.weather_forecast) =
        some (some (unableMsg sW.destination)) ∧
      mentions (unableMsg sW.destination) sW.destination ∧
      (run_travel_planning envC6 sW).toOption.map
        (fun p => (p.1.contains Node.itinerary_builder, p.1.contains Node.hotel_recommender)) =
        some (true, true) ∧
      (run_travel_planning envC6 sW).toOption.map
        (fun p => (p.2.itinerary.isSome, p.2.suggested_hotels.isSome)) = some (true, true)) :=
  ⟨rfl, rfl, rfl, rfl, rfl,
    weather_geocode_failure_pipeline_continues envC6 sW rfl rfl rfl rfl rfl⟩

end TravelPlanner
